import Mathlib

/-!
Shallow embedding of the tool-orchestration core of the GeminiTldraw canvas
application (src/index.tsx), together with theorems settling the frozen
claims about its specification.

Modelling conventions:
* browser `Blob`s are represented by their base64 payload;
* each call to `ai.models.generateContent` is resolved by an oracle
  `Nat → Option InlineData` giving the inline image found in the response of
  the k-th call (none = the response carried no inline image);
* exceptions are `Except String`, carrying the JS error message;
* React state reads inside one `handleAssistantSubmit` invocation see the
  values captured at the start of the call (a `setState` during the call is
  only visible to later invocations), exactly as in the source.
-/

namespace GeminiTldraw

/-- the `inlineData` of a model response part or request part. -/
structure InlineData where
  mimeType : String
  data : String
deriving DecidableEq, Repr

/-- model names, from src/index.tsx lines 75-78 -/
def GEMINI_MODEL_NAME : String := "gemini-2.5-pro"

def GEMINI_IMAGE_MODEL_NAME : String := "gemini-2.5-flash-image-preview"

def VEO_MODEL_NAME : String := "veo-3.0-generate-001"

/-- a browser Blob, identified with its base64 payload -/
structure Blob where
  base64 : String
deriving DecidableEq, Repr

/-- the data URL built from an inline image part. -/
def dataUrlOf (d : InlineData) : String :=
  "data:" ++ d.mimeType ++ ";base64," ++ d.data

/-- the mime extraction `s.match(/data:(.*);base64,/)?.[1]` for a string with
at most one `;base64,` marker -/
def matchDataUrlMime (s : String) : Option String :=
  if s.startsWith "data:" then
    match (s.drop 5).splitOn ";base64," with
    | [] => none
    | [_] => none
    | m :: _ => some m
  else none

/-- one request to `ai.models.generateContent` -/
structure GenRequest where
  model : String
  parts : List (Sum String InlineData)   -- text parts and inline-data parts
deriving DecidableEq, Repr

/-- the optional reference-image part of `generateImages`
(src/index.tsx lines 276-278): base64 payload with the mime sniffed from the
payload itself, defaulting to image/png -/
def imagePartOf (imageBlob : Option Blob) : Option InlineData :=
  imageBlob.map (fun b => ⟨(matchDataUrlMime b.base64).getD "image/png", b.base64⟩)

/-- request shape of one `generateContent` call in `generateImages`
(src/index.tsx line 282-286): image part first when present, then the text -/
def mkImageReq (ip : Option InlineData) (txt : String) : GenRequest :=
  { model := GEMINI_IMAGE_MODEL_NAME,
    parts := match ip with
      | some p => [Sum.inr p, Sum.inl txt]
      | none => [Sum.inl txt] }

/-- one round of the `for (let i = 0; i < numberOfImages; i++)` loop of
`generateImages`: `n` sequential `generateContent` calls starting at global
call index `k`, collecting the data URLs of the inline images found -/
def genRound (oracle : Nat → Option InlineData) (ip : Option InlineData)
    (txt : String) : Nat → Nat → List GenRequest × List String
  | 0, _ => ([], [])
  | n + 1, k =>
      let rest := genRound oracle ip txt n (k + 1)
      match oracle k with
      | some d => (mkImageReq ip txt :: rest.1, dataUrlOf d :: rest.2)
      | none => (mkImageReq ip txt :: rest.1, rest.2)

/-- message of the distinguished no-images error (src/index.tsx line 306) -/
def noImagesMsg : String := "Gemini did not return images"

/-- the augmented retry prompt of `generateImages` (src/index.tsx line 293) -/
def retryPromptOf (prompt : String) : String :=
  (prompt ++ "\nChange camera angle and lighting, vary background and composition; avoid reproducing the exact scene.").trim

/-- model of `generateImages` (src/index.tsx lines 268-310): one `generateContent`
call per requested image; if zero images were collected, one retry round with
the augmented prompt; if still zero, throw the no-images error.  Returns the
full list of issued requests alongside the outcome. -/
def generateImages (oracle : Nat → Option InlineData) (prompt : String)
    (imageBlob : Option Blob) (numberOfImages : Nat) (ar : String) :
    List GenRequest × Except String (List String) :=
  let ip := imagePartOf imageBlob
  let r1 := genRound oracle ip prompt numberOfImages 0
  if r1.2.length = 0 then
    let r2 := genRound oracle ip (retryPromptOf prompt) numberOfImages numberOfImages
    if r2.2.length = 0 then
      (r1.1 ++ r2.1, .error noImagesMsg)
    else (r1.1 ++ r2.1, .ok r2.2)
  else (r1.1, .ok r1.2)

/-- the `operation.response` object of a completed Veo operation -/
structure VideoResponse where
  raiMediaFilteredCount : Nat
  raiMediaFilteredReasons : List String
  generatedVideos : Option (List String)   -- fetched video payloads, when present
deriving DecidableEq, Repr

/-- environment of the FAL fallback path of `generateVideo`:
`process.env.FAL_KEY` presence, the `falFallbackConfig.video` toggle, the URLs
returned by `falVeo3Video` (itself total: it catches its own errors and
returns `[]`), and the per-URL fetch outcome (none = the fetch threw and the
URL is skipped by the empty catch at src/index.tsx line 380) -/
structure VideoEnv where
  falKeyPresent : Bool
  falVideoEnabled : Bool
  falUrls : List String
  fetchOk : String → Option String

/-- outcome of the `try` block of `generateVideo` given a completed operation
(src/index.tsx lines 344-362): a non-empty safety-filter reason list throws
the first reason; otherwise the generated videos are returned when present;
with no `response` or no `generatedVideos` the block falls through
(`ok none`). -/
def primaryVideoResult : Option VideoResponse → Except String (Option (List String))
  | none => .ok none
  | some r =>
      if r.raiMediaFilteredCount ≠ 0 ∧ 0 < r.raiMediaFilteredReasons.length then
        .error (r.raiMediaFilteredReasons.headD "")
      else
        match r.generatedVideos with
        | some vids => .ok (some vids)
        | none => .ok none

/-- model of `generateVideo` (src/index.tsx lines 312-383).  `primary` is the outcome
of the Veo submit/poll phase: `.error m` when it threw, `.ok resp` when the
operation completed with response `resp`.  Any primary failure is caught and
control reaches the FAL section: without a FAL key or with the video toggle
off it returns `[]`; otherwise it fetches the fallback URLs, skipping the ones
whose fetch fails.  The second component records whether the FAL fallback was
invoked. -/
def generateVideoRun (env : VideoEnv)
    (primary : Except String (Option VideoResponse)) :
    Except String (List String) × Bool :=
  let prim : Except String (Option (List String)) :=
    match primary with
    | .error m => .error m
    | .ok resp => primaryVideoResult resp
  match prim with
  | .ok (some vids) => (.ok vids, false)
  | _ =>
      if env.falKeyPresent && env.falVideoEnabled then
        (.ok (env.falUrls.filterMap env.fetchOk), true)
      else (.ok [], false)

/-- a primary attempt that did not end in returned videos: it threw, was
filtered, or completed without `generatedVideos` -/
def primaryFailed (primary : Except String (Option VideoResponse)) : Bool :=
  match primary with
  | .error _ => true
  | .ok resp =>
      match primaryVideoResult resp with
      | .ok (some _) => false
      | _ => true

theorem genRound_reqs (oracle : Nat → Option InlineData) (ip : Option InlineData)
    (txt : String) : ∀ n k, (genRound oracle ip txt n k).1 =
      List.replicate n (mkImageReq ip txt) := by
  intro n
  induction n with
  | zero => intro k; rfl
  | succ m ih =>
      intro k
      simp only [genRound, List.replicate]
      cases oracle k <;> simp [ih]

/-- C2: for every call to `generateImages`, if the first round of attempts
(one model request per requested image) yields zero images, exactly one
additional round of the same number of requests is performed with the prompt
augmented by the diversity instructions — the same retry whether or not a
reference image was supplied (the statement quantifies over `img`) — and if
that round also yields zero images the function fails with the distinguished
no-images error; when the first round yields images no further request is
made, so there is never more than one retry round. -/
theorem generateImages_retry_policy (oracle : Nat → Option InlineData)
    (prompt : String) (img : Option Blob) (n : Nat) (ar : String) :
    ((genRound oracle (imagePartOf img) prompt n 0).2 ≠ [] →
      generateImages oracle prompt img n ar =
        ((genRound oracle (imagePartOf img) prompt n 0).1,
         .ok (genRound oracle (imagePartOf img) prompt n 0).2)) ∧
    ((genRound oracle (imagePartOf img) prompt n 0).2 = [] →
      (generateImages oracle prompt img n ar).1 =
        List.replicate n (mkImageReq (imagePartOf img) prompt) ++
        List.replicate n (mkImageReq (imagePartOf img) (retryPromptOf prompt)) ∧
      (generateImages oracle prompt img n ar).2 =
        (if (genRound oracle (imagePartOf img) (retryPromptOf prompt) n n).2 = []
         then .error noImagesMsg
         else .ok (genRound oracle (imagePartOf img) (retryPromptOf prompt) n n).2)) := by
  constructor
  · intro h1
    have hlen : ¬ (genRound oracle (imagePartOf img) prompt n 0).2.length = 0 := by
      simpa [List.length_eq_zero] using h1
    simp [generateImages, hlen]
  · intro h1
    have hlen : (genRound oracle (imagePartOf img) prompt n 0).2.length = 0 := by
      simp [h1]
    by_cases h2 : (genRound oracle (imagePartOf img) (retryPromptOf prompt) n n).2 = []
    · have hlen2 : (genRound oracle (imagePartOf img) (retryPromptOf prompt) n n).2.length = 0 := by
        simp [h2]
      refine ⟨?_, ?_⟩ <;> simp [generateImages, hlen, hlen2, genRound_reqs, h2]
    · have hlen2 : ¬ (genRound oracle (imagePartOf img) (retryPromptOf prompt) n n).2.length = 0 := by
        simpa [List.length_eq_zero] using h2
      refine ⟨?_, ?_⟩ <;> simp [generateImages, hlen, hlen2, genRound_reqs, h2]

/-- Closed witness for `generateImages_retry_policy`: an oracle that returns no
image on the first round and one image on the retry round. -/
theorem generateImages_retry_policy_witness :
    (genRound (fun k => if k = 1 then some ⟨"image/png", "QUJD"⟩ else none)
        (imagePartOf none) "a cat" 1 0).2 = [] ∧
    ((generateImages (fun k => if k = 1 then some ⟨"image/png", "QUJD"⟩ else none)
        "a cat" none 1 "16:9").1 =
      List.replicate 1 (mkImageReq (imagePartOf none) "a cat") ++
      List.replicate 1 (mkImageReq (imagePartOf none) (retryPromptOf "a cat")) ∧
     (generateImages (fun k => if k = 1 then some ⟨"image/png", "QUJD"⟩ else none)
        "a cat" none 1 "16:9").2 =
      (if (genRound (fun k => if k = 1 then some ⟨"image/png", "QUJD"⟩ else none)
            (imagePartOf none) (retryPromptOf "a cat") 1 1).2 = []
       then .error noImagesMsg
       else .ok (genRound (fun k => if k = 1 then some ⟨"image/png", "QUJD"⟩ else none)
            (imagePartOf none) (retryPromptOf "a cat") 1 1).2)) :=
  ⟨rfl,
   (generateImages_retry_policy (fun k => if k = 1 then some ⟨"image/png", "QUJD"⟩ else none)
      "a cat" none 1 "16:9").2 rfl⟩

/-- C10: two calls to `generateImages` that differ only in the aspect-ratio
argument issue identical model requests and produce identical results: the
parameter is accepted but never used in any request. -/
theorem generateImages_ignores_aspect (oracle : Nat → Option InlineData)
    (prompt : String) (img : Option Blob) (n : Nat) (ar₁ ar₂ : String) :
    generateImages oracle prompt img n ar₁ = generateImages oracle prompt img n ar₂ := rfl

/-- a rasterized image: pixel grid of extent `w × h`; `none` = transparent -/
structure Bitmap where
  w : Nat
  h : Nat
  px : Int → Int → Option Nat

/-- a fresh 2D canvas: fully transparent -/
def blankCanvas (w h : Nat) : Bitmap :=
  { w := w, h := h, px := fun _ _ => none }

/-- model of `ctx.drawImage(src, dx, dy)`: paints the opaque pixels of `src` onto `dst`
translated by `(dx, dy)`; pixels outside the destination rectangle of `src`
are untouched -/
def drawImage (dst src : Bitmap) (dx dy : Int) : Bitmap :=
  { dst with px := fun x y =>
      if dx ≤ x ∧ x < dx + (src.w : Int) ∧ dy ≤ y ∧ y < dy + (src.h : Int) then
        match src.px (x - dx) (y - dy) with
        | some c => some c
        | none => dst.px x y
      else dst.px x y }

/-- page bounds of a shape -/
structure Rect where
  left : Int
  top : Int
  width : Nat
  height : Nat
deriving DecidableEq, Repr

def rect0 : Rect := ⟨0, 0, 0, 0⟩

/-- source of an image asset: a data/remote URL, or the PNG baked from a
canvas bitmap -/
inductive ImageSrc where
  | url (s : String)
  | bakedPng (bm : Bitmap)

/-- a tldraw shape record: its type tag, asset reference, text content (for
text shapes) and page bounds -/
structure ShapeRec where
  kind : String
  assetId : Option Nat
  text : String
  bounds : Rect
deriving DecidableEq, Repr

/-- a tldraw asset record -/
structure AssetRec where
  kind : String
  src : ImageSrc
  name : String

/-- the canvas document: shape and asset stores, current selection, and a
fresh-id counter standing in for `createShapeId()` -/
structure Editor where
  shapes : List (Nat × ShapeRec)
  assets : List (Nat × AssetRec)
  selection : List Nat
  fresh : Nat

def lookupRec {α : Type} (l : List (Nat × α)) (id : Nat) : Option α :=
  (l.find? (fun p => p.1 == id)).map Prod.snd

def Editor.getShape (ed : Editor) (id : Nat) : Option ShapeRec :=
  lookupRec ed.shapes id

def Editor.getAsset (ed : Editor) (id : Nat) : Option AssetRec :=
  lookupRec ed.assets id

def Editor.deleteShape (ed : Editor) (id : Nat) : Editor :=
  { ed with shapes := ed.shapes.filter (fun p => p.1 != id),
            selection := ed.selection.filter (fun s => s != id) }

def Editor.select1 (ed : Editor) (id : Nat) : Editor :=
  { ed with selection := [id] }

def Editor.selectSet (ed : Editor) (ids : List Nat) : Editor :=
  { ed with selection := ids }

def Editor.updateAssetRec (ed : Editor) (id : Nat) (a : AssetRec) : Editor :=
  { ed with assets := ed.assets.map (fun p => if p.1 == id then (p.1, a) else p) }

def Editor.addShape (ed : Editor) (s : ShapeRec) : Editor × Nat :=
  ({ ed with shapes := ed.shapes ++ [(ed.fresh, s)], fresh := ed.fresh + 1 }, ed.fresh)

def Editor.addAsset (ed : Editor) (a : AssetRec) : Editor × Nat :=
  ({ ed with assets := ed.assets ++ [(ed.fresh, a)], fresh := ed.fresh + 1 }, ed.fresh)

/-- effects against the canvas document and its surroundings, recorded as a
trace -/
inductive CanvasOp where
  | createShape (id : Nat)
  | deleteShape (id : Nat)
  | createAsset (id : Nat)
  | updateAsset (id : Nat)
  | select (ids : List Nat)
  | openMaskEditor (assetId : Nat) (initialPrompt : String) (overlaySrc : Option String)
  | modelCall (model : String)
  | toast (title : String)
deriving DecidableEq, Repr

/-- shape- or asset-mutating effects (creation, update, deletion) -/
def CanvasOp.isMutation : CanvasOp → Bool
  | .createShape _ => true
  | .deleteShape _ => true
  | .createAsset _ => true
  | .updateAsset _ => true
  | _ => false

/-- result of a successful `bakeOverlayBetweenShapes`: final editor,
baked base bitmap written to the asset, and the effect trace -/
structure BakeResult where
  editor : Editor
  baked : Bitmap
  ops : List CanvasOp

/-- the browser-canvas environment of a composition: whether
`canvas.getContext('2d')` returns a context and whether `canvas.toBlob`
delivers a blob -/
structure CanvasEnv where
  context2dOk : Bool
  toBlobOk : Bool
deriving DecidableEq, Repr

/-- model of `bakeOverlayBetweenShapes` (src/index.tsx lines 1058-1131):
deterministic pixel composition.  Exports base (with background) and overlay
(without), paints both on a canvas sized to the base bounds, writes the
result into the base asset, deletes the overlay shape and selects the base
shape.  As in the source, shape lookups check existence only (the
`TLImageShape` casts are unchecked) and the asset must exist and be an image;
apart from those structural checks the function can also fail when the 2D
context is unavailable (line 1091) or when the canvas-to-blob conversion
yields nothing (line 1101), in the source's order: shapes, context, compose,
blob, asset. -/
def bakeOverlayBetweenShapes (cenv : CanvasEnv) (rasterize : Nat → Bool → Bitmap)
    (ed : Editor) (baseShapeId overlayShapeId : Nat) : Except String BakeResult :=
  match ed.getShape baseShapeId, ed.getShape overlayShapeId with
  | some baseShape, some overlayShape =>
      let baseBounds := baseShape.bounds
      let overlayBounds := overlayShape.bounds
      let baseBitmap := rasterize baseShapeId true
      let overlayBitmap := rasterize overlayShapeId false
      let canvas := blankCanvas (max 1 baseBounds.width) (max 1 baseBounds.height)
      if cenv.context2dOk then
        let withBase := drawImage canvas baseBitmap 0 0
        let dx := overlayBounds.left - baseBounds.left
        let dy := overlayBounds.top - baseBounds.top
        let baked := drawImage withBase overlayBitmap dx dy
        if cenv.toBlobOk then
          match baseShape.assetId with
          | none => .error "Base asset not found or not an image."
          | some assetId =>
              match ed.getAsset assetId with
              | none => .error "Base asset not found or not an image."
              | some a =>
                  if a.kind == "image" then
                    let ed1 := ed.updateAssetRec assetId ⟨"image", .bakedPng baked, a.name⟩
                    let ed2 := ed1.deleteShape overlayShapeId
                    let ed3 := ed2.select1 baseShapeId
                    .ok ⟨ed3, baked,
                      [.updateAsset assetId, .deleteShape overlayShapeId, .select [baseShapeId]]⟩
                  else .error "Base asset not found or not an image."
        else .error "Failed to bake overlay"
      else .error "Could not get 2D context."
  | _, _ => .error "Both shapes must be images."

theorem lookupRec_filter_ne {α : Type} (l : List (Nat × α)) (id : Nat) :
    lookupRec (l.filter (fun p => p.1 != id)) id = none := by
  unfold lookupRec
  rw [List.find?_eq_none.mpr]
  · rfl
  · intro x hx
    have := List.of_mem_filter hx
    simp only [bne_iff_ne, ne_eq] at this
    simp [this]

/-- C6 amended: for every successful `bakeOverlayBetweenShapes` call, the
pixels of the baked base bitmap outside the overlay's footprint — the overlay
bounds offset relative to the base bounds — equal the pre-call base
rasterization (on the domain of the exported base bitmap), the overlay shape
is deleted from the document, and the effect trace contains no
generative-model call; every failure is one of the two structural messages
(missing shape, missing or non-image base asset) or one of the two
canvas-environment messages (2D context unavailable, canvas-to-blob
conversion failed). -/
theorem bakeOverlay_props_amended (cenv : CanvasEnv) (rz : Nat → Bool → Bitmap)
    (ed : Editor) (b o : Nat) :
    (∀ res, bakeOverlayBetweenShapes cenv rz ed b o = .ok res →
      res.editor.getShape o = none ∧
      (∀ m, CanvasOp.modelCall m ∉ res.ops) ∧
      (∀ bs os, ed.getShape b = some bs → ed.getShape o = some os →
        ∀ x y : Int,
          ¬ (os.bounds.left - bs.bounds.left ≤ x ∧
             x < os.bounds.left - bs.bounds.left + ((rz o false).w : Int) ∧
             os.bounds.top - bs.bounds.top ≤ y ∧
             y < os.bounds.top - bs.bounds.top + ((rz o false).h : Int)) →
          0 ≤ x → x < ((rz b true).w : Int) → 0 ≤ y → y < ((rz b true).h : Int) →
          res.baked.px x y = (rz b true).px x y)) ∧
    (∀ m, bakeOverlayBetweenShapes cenv rz ed b o = .error m →
      m = "Both shapes must be images." ∨ m = "Base asset not found or not an image." ∨
      m = "Could not get 2D context." ∨ m = "Failed to bake overlay") := by
  constructor
  · intro res hres
    unfold bakeOverlayBetweenShapes at hres
    simp only [] at hres
    split at hres
    case h_2 => exact absurd hres (by simp)
    case h_1 baseShape overlayShape hbEq hoEq =>
    split at hres
    case isFalse => exact absurd hres (by simp)
    case isTrue hctx =>
    split at hres
    case isFalse => exact absurd hres (by simp)
    case isTrue hblob =>
    split at hres
    case h_1 => exact absurd hres (by simp)
    case h_2 aid haiEq =>
    split at hres
    case h_1 => exact absurd hres (by simp)
    case h_2 a hgaEq =>
    split at hres
    case isFalse => exact absurd hres (by simp)
    case isTrue hk =>
    simp only [Except.ok.injEq] at hres
    subst hres
    refine ⟨?_, ?_, ?_⟩
    · simp [Editor.getShape, Editor.select1, Editor.deleteShape, Editor.updateAssetRec,
        lookupRec_filter_ne]
    · intro m; simp
    · intro bs os hbs hos x y hout hx0 hxw hy0 hyh
      have hbs' : bs = baseShape := by
        rw [hbEq] at hbs; exact (Option.some.inj hbs).symm
      have hos' : os = overlayShape := by
        rw [hoEq] at hos; exact (Option.some.inj hos).symm
      subst hbs' hos'
      show (drawImage (drawImage (blankCanvas _ _) (rz b true) 0 0) (rz o false) _ _).px x y
        = (rz b true).px x y
      rw [drawImage]
      simp only []
      rw [if_neg hout]
      rw [drawImage]
      simp only []
      rw [if_pos ⟨hx0, by omega, hy0, by omega⟩]
      simp only [sub_zero]
      cases hpx : (rz b true).px x y with
      | none => simp [blankCanvas]
      | some c => rfl
  · intro m hm
    unfold bakeOverlayBetweenShapes at hm
    simp only [] at hm
    split at hm
    case h_2 => exact .inl (Except.error.inj hm).symm
    case h_1 baseShape overlayShape hbEq hoEq =>
    split at hm
    case isFalse => exact .inr (.inr (.inl (Except.error.inj hm).symm))
    case isTrue hctx =>
    split at hm
    case isFalse => exact .inr (.inr (.inr (Except.error.inj hm).symm))
    case isTrue hblob =>
    split at hm
    case h_1 => exact .inr (.inl (Except.error.inj hm).symm)
    case h_2 aid haiEq =>
    split at hm
    case h_1 => exact .inr (.inl (Except.error.inj hm).symm)
    case h_2 a hgaEq =>
    split at hm
    case isTrue => exact absurd hm (by simp)
    case isFalse => exact .inr (.inl (Except.error.inj hm).symm)

/-- concrete rasterizer: shape 1 is a 4x4 base, everything else a 2x2 patch -/
def rzC : Nat → Bool → Bitmap := fun id _ =>
  if id = 1 then
    ⟨4, 4, fun x y => if 0 ≤ x ∧ x < 4 ∧ 0 ≤ y ∧ y < 4 then some 7 else none⟩
  else ⟨2, 2, fun _ _ => some 9⟩

/-- concrete editor: base image shape 1 (asset 10) and overlay image shape 2
(asset 11), overlapping on the lower-right quadrant of the base -/
def edC6 : Editor :=
  { shapes := [(1, ⟨"image", some 10, "", ⟨0, 0, 4, 4⟩⟩),
               (2, ⟨"image", some 11, "", ⟨2, 2, 2, 2⟩⟩)],
    assets := [(10, ⟨"image", .url "baseSrc", "base.png"⟩),
               (11, ⟨"image", .url "ovSrc", "ov.png"⟩)],
    selection := [], fresh := 100 }

def bakeResOf (e : Except String BakeResult) (d : BakeResult) : BakeResult :=
  match e with
  | .ok r => r
  | .error _ => d

def dummyBakeResult : BakeResult := ⟨⟨[], [], [], 0⟩, blankCanvas 0 0, []⟩

/-- the canvas environment in which 2D context acquisition and blob encoding
both succeed -/
def canvasOk : CanvasEnv := ⟨true, true⟩

/-- C6 counterexample: on a structurally valid base and overlay (both shapes
and the image asset exist), `bakeOverlayBetweenShapes` can still fail with
the non-structural message of src/index.tsx line 1091 when the browser canvas
yields no 2D context — so the failure modes are not only structural
(missing or non-image shapes/assets). -/
theorem bakeOverlay_nonstructural_counterexample :
    bakeOverlayBetweenShapes ⟨false, true⟩ rzC edC6 1 2 =
      .error "Could not get 2D context." ∧
    edC6.getShape 1 = some ⟨"image", some 10, "", ⟨0, 0, 4, 4⟩⟩ ∧
    edC6.getShape 2 = some ⟨"image", some 11, "", ⟨2, 2, 2, 2⟩⟩ ∧
    edC6.getAsset 10 = some ⟨"image", .url "baseSrc", "base.png"⟩ ∧
    "Could not get 2D context." ≠ "Both shapes must be images." ∧
    "Could not get 2D context." ≠ "Base asset not found or not an image." :=
  ⟨rfl, rfl, rfl, rfl, by decide, by decide⟩

/-- Closed witness for `bakeOverlay_props_amended`: on the concrete 4x4 base
and 2x2 overlay in a healthy canvas environment, the bake succeeds, the
overlay shape is gone, and the pixel (0,0) — outside the overlay footprint —
keeps its pre-call base value. -/
theorem bakeOverlay_props_amended_witness :
    bakeOverlayBetweenShapes canvasOk rzC edC6 1 2 =
      .ok (bakeResOf (bakeOverlayBetweenShapes canvasOk rzC edC6 1 2) dummyBakeResult) ∧
    (bakeResOf (bakeOverlayBetweenShapes canvasOk rzC edC6 1 2)
      dummyBakeResult).editor.getShape 2 = none ∧
    (bakeResOf (bakeOverlayBetweenShapes canvasOk rzC edC6 1 2) dummyBakeResult).baked.px 0 0
      = (rzC 1 true).px 0 0 := by
  have h : bakeOverlayBetweenShapes canvasOk rzC edC6 1 2 =
      .ok (bakeResOf (bakeOverlayBetweenShapes canvasOk rzC edC6 1 2) dummyBakeResult) := rfl
  have hp := (bakeOverlay_props_amended canvasOk rzC edC6 1 2).1 _ h
  refine ⟨h, hp.1, ?_⟩
  refine hp.2.2 ⟨"image", some 10, "", ⟨0, 0, 4, 4⟩⟩ ⟨"image", some 11, "", ⟨2, 2, 2, 2⟩⟩
    rfl rfl 0 0 ?_ ?_ ?_ ?_ ?_
  all_goals decide

/-- concrete fallback environment with FAL configured and the video flow
enabled -/
def falOnEnv : VideoEnv :=
  { falKeyPresent := true, falVideoEnabled := true,
    falUrls := ["http://fal/video0"], fetchOk := fun _ => some "RkFMdmlk" }

/-- a completed Veo operation whose output was safety-filtered -/
def filteredResp : VideoResponse :=
  { raiMediaFilteredCount := 1,
    raiMediaFilteredReasons := ["Responsible AI filtered the video"],
    generatedVideos := none }

/-- C3 counterexample: a `generateVideo` call whose primary operation
completes with a non-empty safety-filter reason list does NOT fail with that
reason, and the FAL fallback IS invoked: the `throw` at src/index.tsx line 350
is inside the `try` whose `catch` (line 363) swallows every primary failure
before the fallback section runs. -/
theorem generateVideo_safety_filter_counterexample :
    (generateVideoRun falOnEnv (.ok (some filteredResp))).2 = true ∧
    (generateVideoRun falOnEnv (.ok (some filteredResp))).1 = .ok ["RkFMdmlk"] :=
  ⟨rfl, rfl⟩

/-- C3 amended: when the primary Veo operation completes with a non-empty
safety-filter reason list, the primary path throws with the first reason, but
the surrounding catch treats this like any other primary failure: the FAL
fallback is invoked when a FAL key is configured and the video flow toggle is
on, and otherwise the call returns the empty list instead of failing. -/
theorem generateVideo_safety_filter_amended (env : VideoEnv) (r : VideoResponse)
    (hc : r.raiMediaFilteredCount ≠ 0)
    (hr : 0 < r.raiMediaFilteredReasons.length) :
    generateVideoRun env (.ok (some r)) =
      if env.falKeyPresent && env.falVideoEnabled then
        (.ok (env.falUrls.filterMap env.fetchOk), true)
      else (.ok [], false) := by
  have hcond : (r.raiMediaFilteredCount ≠ 0 ∧ 0 < r.raiMediaFilteredReasons.length) := ⟨hc, hr⟩
  simp only [generateVideoRun, primaryVideoResult, if_pos hcond]

/-- Closed witness for `generateVideo_safety_filter_amended` at the concrete
filtered response and FAL-enabled environment. -/
theorem generateVideo_safety_filter_amended_witness :
    generateVideoRun falOnEnv (.ok (some filteredResp)) =
      if falOnEnv.falKeyPresent && falOnEnv.falVideoEnabled then
        (.ok (falOnEnv.falUrls.filterMap falOnEnv.fetchOk), true)
      else (.ok [], false) :=
  generateVideo_safety_filter_amended falOnEnv filteredResp
    (by decide) (by decide)

/-- concrete fallback environment with no FAL credential configured -/
def falOffEnv : VideoEnv :=
  { falKeyPresent := false, falVideoEnabled := true,
    falUrls := [], fetchOk := fun _ => none }

/-- C4 counterexample: with the primary provider failing and no FAL
credential, the overall call does NOT fail — `generateVideo` returns the
empty list as a non-error result (src/index.tsx lines 368-370), so the caller
observes a successful empty outcome rather than a failure. -/
theorem generateVideo_disabled_fallback_counterexample :
    (generateVideoRun falOffEnv (.error "Veo quota exceeded")).1 = .ok [] ∧
    ∀ m, (generateVideoRun falOffEnv (.error "Veo quota exceeded")).1 ≠ .error m :=
  ⟨rfl, fun _ h => Except.noConfusion h⟩

/-- C4 amended: when the primary provider fails and the fallback is disabled
for the video flow or no FAL credential is configured, `generateVideo`
returns the empty list without invoking the fallback: the fallback path
produces no output and throws no exception, and the caller observes zero
videos (a non-error empty result) rather than a failure or a fabricated
success. -/
theorem generateVideo_disabled_fallback_amended (env : VideoEnv)
    (primary : Except String (Option VideoResponse))
    (hfail : primaryFailed primary = true)
    (hdis : ¬ (env.falKeyPresent = true ∧ env.falVideoEnabled = true)) :
    generateVideoRun env primary = (.ok [], false) := by
  have hb : (env.falKeyPresent && env.falVideoEnabled) = false := by
    rcases h1 : env.falKeyPresent <;> rcases h2 : env.falVideoEnabled <;>
      simp_all
  unfold generateVideoRun
  unfold primaryFailed at hfail
  rcases primary with m | resp
  · simp [hb]
  · simp only [] at hfail ⊢
    rcases hres : primaryVideoResult resp with m | ov
    · simp [hres, hb]
    · rcases ov with _ | vids
      · simp [hres, hb]
      · rw [hres] at hfail; simp at hfail

/-- Closed witness for `generateVideo_disabled_fallback_amended` at a
concrete failing primary and credential-less environment. -/
theorem generateVideo_disabled_fallback_amended_witness :
    generateVideoRun falOffEnv (.error "Veo quota exceeded") = (.ok [], false) :=
  generateVideo_disabled_fallback_amended falOffEnv (.error "Veo quota exceeded")
    rfl (by decide)

/-- an image the user attached to the chat (`{src, shapeId}`) -/
structure ChatImage where
  src : String
  shapeId : Nat
deriving DecidableEq, Repr

/-- structured result of one tool invocation, fed back to the model -/
inductive ToolResult where
  | output (s : String)
  | error (s : String)
deriving DecidableEq, Repr

def ToolResult.isError : ToolResult → Bool
  | .error _ => true
  | _ => false

/-- arguments of a model function call; absent keys are `none`.
`aspect` models the source's `aspectRatio` argument. -/
structure FnArgs where
  prompt : Option String := none
  numberOfImages : Option Nat := none
  aspect : Option String := none
  variationStrength : Option Nat := none
  stylePreset : Option String := none
  negativePrompt : Option String := none
  seed : Option Nat := none
  baseShapeId : Option Nat := none
  overlayShapeId : Option Nat := none
  factor : Option Nat := none
  steps : Option (List String) := none
deriving DecidableEq, Repr

/-- a content part of a chat message or model response -/
inductive Part where
  | text (s : String)
  | inline (d : InlineData)
  | functionCall (name : String) (args : FnArgs)
  | functionResponse (name : String) (result : ToolResult)
deriving DecidableEq, Repr

/-- one entry of the user-visible chat transcript (`chatHistory`) -/
structure Turn where
  role : String
  parts : List Part
deriving DecidableEq, Repr

/-- the `candidates[0].content` of one model response -/
structure ModelResponse where
  parts : List Part
deriving DecidableEq, Repr

/-- holds when `l` starts with the status key, optional
whitespace, then `500` — the `status":\s*500` alternative of the transient
regex -/
def statusFiveHundredAt (l : List Char) : Bool :=
  "status\":".toList.isPrefixOf l &&
    "500".toList.isPrefixOf ((l.drop 8).dropWhile Char.isWhitespace)

def anySuffix (p : List Char → Bool) : List Char → Bool
  | [] => p []
  | c :: cs => p (c :: cs) || anySuffix p cs

/-- whether `pat` occurs as a contiguous run inside `l` -/
def infixCheck (pat l : List Char) : Bool :=
  anySuffix (fun s => pat.isPrefixOf s) l

/-- the characters of `s` lowercased (ASCII case folding, as the `/i` regex
flag applies it to these patterns) -/
def lowerChars (s : String) : List Char :=
  s.data.map Char.toLower

/-- the transient-error test of `handleAssistantSubmit`
(src/index.tsx line 1901): `/INTERNAL|code":500|status":\s*500/i.test(msg)` -/
def isTransientMsg (msg : String) : Bool :=
  let s := lowerChars msg
  infixCheck "internal".data s ||
  infixCheck "code\":500".data s ||
  anySuffix statusFiveHundredAt s

/-- case-insensitive containment test for a lowercase pattern, modelling
`/pat/i.test(s)` -/
def containsLC (s pat : String) : Bool :=
  infixCheck pat.data (lowerChars s)

/-- declaration of one assistant tool: its name and required parameters
(src/index.tsx lines 1709-1839) -/
structure ToolDecl where
  name : String
  required : List String
deriving DecidableEq, Repr

def toolDeclarations : List ToolDecl :=
  [⟨"generateImage", ["prompt"]⟩,
   ⟨"editImage", ["prompt"]⟩,
   ⟨"removeBackground", []⟩,
   ⟨"applyOverlay", []⟩,
   ⟨"composeAI", ["prompt"]⟩,
   ⟨"upscaleImage", []⟩,
   ⟨"generateVideo", ["prompt"]⟩,
   ⟨"plan", []⟩]

/-- configuration a chat session is created with -/
structure ChatCfg where
  model : String
  toolNames : List String
deriving DecidableEq, Repr

def registryToolNames : List String := toolDeclarations.map (fun d => d.name)

def primaryChatCfg : ChatCfg := ⟨GEMINI_MODEL_NAME, registryToolNames⟩

def fallbackModelChatCfg : ChatCfg := ⟨"gemini-2.5-flash", registryToolNames⟩

/-- implicit tool context of one `handleAssistantSubmit` invocation -/
structure ToolCtx where
  imageSrc : Option String      -- imageForToolContext
  editShapeId : Option Nat      -- shapeIdForEditing
  lastImage : Option ChatImage  -- lastAssistantImageInChat as captured pre-call
deriving DecidableEq, Repr

/-- the overlay pre-filled by the assistant editImage tool
(src/index.tsx lines 1945-1950): the last chat image, and only when it is a
shape different from the edit target -/
def editImageOverlaySrc (lastImage : Option ChatImage) (editShapeId : Option Nat) :
    Option String :=
  match lastImage with
  | some im => if some im.shapeId ≠ editShapeId then some im.src else none
  | none => none

/-- base/overlay resolution of applyOverlay (src/index.tsx lines 2013-2017)
and composeAI (lines 2026-2027): the explicit argument when given, else the
edit-target default for the base and the last chat image for the overlay -/
def resolveBaseOverlay (args : FnArgs) (editShapeId : Option Nat)
    (lastImage : Option ChatImage) : Option Nat × Option Nat :=
  (args.baseShapeId <|> editShapeId,
   args.overlayShapeId <|> lastImage.map (fun im => im.shapeId))

/-- environment of one tool invocation: rasterization/encoding of canvas
content and the per-call media oracles -/
structure ToolEnv where
  rasterize : Nat → Bool → Bitmap         -- editor.toImage (id, background)
  encode : Bitmap → String                -- canvas/blob → base64 payload
  imgOracle : Nat → Option InlineData     -- generateContent responses
  videoEnv : VideoEnv
  videoPrimary : Except String (Option VideoResponse)
  canvasEnv : CanvasEnv                   -- browser canvas context/blob availability

/-- intermediate outcome of a tool handler body: normal completion (`ok`) or
an exception carrying its message -/
structure Step where
  res : Except String Unit
  editor : Editor
  ops : List CanvasOp

/-- result of a tool handler as seen by the orchestrator loop before its
catch: a structured output, a structured error, or a thrown exception -/
inductive HandlerRes where
  | output (s : String)
  | errorRes (s : String)
  | thrown (s : String)
deriving DecidableEq, Repr

/-- a placeholder shape inserted by `addPlaceholder` -/
def placeholderShape : ShapeRec := ⟨"geo", none, "", rect0⟩

/-- the `editImage` media call (src/index.tsx lines 241-266): one
`generateContent` request with text, image, mask and optional overlay parts;
the first inline image of the response is returned as a data URL -/
def editImageMedia (oracle : Nat → Option InlineData) (image mask : Blob)
    (prompt : String) (overlay : Option Blob) : GenRequest × Except String String :=
  let textPart : Sum String InlineData := Sum.inl prompt
  let imagePart : Sum String InlineData := Sum.inr ⟨"image/png", image.base64⟩
  let maskPart : Sum String InlineData := Sum.inr ⟨"image/png", mask.base64⟩
  let req : GenRequest :=
    { model := GEMINI_IMAGE_MODEL_NAME,
      parts :=
        match overlay with
        | some ob => [textPart, imagePart, maskPart, Sum.inr ⟨"image/png", ob.base64⟩]
        | none => [textPart, imagePart, maskPart] }
  match oracle 0 with
  | some d => (req, .ok (dataUrlOf d))
  | none => (req, .error "Gemini did not return an image for editImage")

/-- model of `handleSaveEditedImage` (src/index.tsx lines 1673-1707): updates the
asset with the new source; every failure is caught internally and reported as
a toast, never thrown -/
def handleSaveEditedImageM (ed : Editor) (oaid : Option Nat) (newSrc : String) :
    Editor × List CanvasOp :=
  match oaid with
  | none => (ed, [.toast "Failed to update image"])
  | some aid =>
      match ed.getAsset aid with
      | none => (ed, [.toast "Failed to update image"])
      | some a =>
          if a.kind == "image" then
            (ed.updateAssetRec aid ⟨"image", .url newSrc, a.name⟩, [.updateAsset aid])
          else (ed, [.toast "Failed to update image"])

/-- the shapes currently selected, with their records -/
def Editor.selectedShapes (ed : Editor) : List (Nat × ShapeRec) :=
  ed.selection.filterMap (fun id => (ed.getShape id).map (fun s => (id, s)))

/-- model of `runEditImage` (src/index.tsx lines 986-1055): export the target shape,
regenerate it via `generateImages` with the shape's aspect ratio, and write
the first result back into the shape's asset -/
def ratioOf (r : Rect) : String :=
  let g := Nat.gcd r.width r.height
  toString (r.width / g) ++ ":" ++ toString (r.height / g)

def runEditImageM (env : ToolEnv) (ed : Editor) (prompt : String) (sid : Nat) : Step :=
  match ed.getShape sid with
  | none => ⟨.error "Target shape is not a valid image.", ed, []⟩
  | some shape =>
      match shape.assetId with
      | none => ⟨.error "Target shape is not a valid image.", ed, []⟩
      | some assetId =>
          let (ed1, phId) := ed.addShape placeholderShape
          let ops1 := [CanvasOp.createShape phId, .select [phId]]
          let blob : Blob := ⟨env.encode (env.rasterize sid true)⟩
          let gen := generateImages env.imgOracle prompt (some blob) 1 (ratioOf shape.bounds)
          let callOps := gen.1.map (fun r => CanvasOp.modelCall r.model)
          match gen.2 with
          | .error m => ⟨.error m, ed1, ops1 ++ callOps⟩
          | .ok imgs =>
              match imgs with
              | [] =>
                  ⟨.error "Image editing failed to return an image.",
                   ed1.deleteShape phId, ops1 ++ callOps ++ [.deleteShape phId]⟩
              | newSrc :: _ =>
                  match ed1.getAsset assetId with
                  | none =>
                      ⟨.error "Could not find existing asset to update.",
                       ed1.deleteShape phId, ops1 ++ callOps ++ [.deleteShape phId]⟩
                  | some a =>
                      if a.kind == "image" then
                        let ed2 := ed1.updateAssetRec assetId ⟨"image", .url newSrc, a.name⟩
                        let ed3 := (ed2.deleteShape phId).select1 sid
                        ⟨.ok (), ed3,
                         ops1 ++ callOps ++ [.updateAsset assetId, .deleteShape phId, .select [sid]]⟩
                      else
                        ⟨.error "The asset being updated is not an image.",
                         ed1.deleteShape phId, ops1 ++ callOps ++ [.deleteShape phId]⟩

/-- the implicit variant prompt of `genImageClick` when only an image is
selected (src/index.tsx line 537) -/
def variantPrompt (ar : String) : String :=
  "Generate a new and different variant of this image. Keep the main subject recognizable, but change pose and composition, vary camera angle and lighting, and update background or small scene elements to create a distinct result. Avoid reproducing the scene exactly. The final image must have an aspect ratio of " ++ ar ++ "."

/-- create one asset + shape per generated image (src/index.tsx lines 581-624) -/
def createImageShapes (ed : Editor) : List String → Editor × List CanvasOp
  | [] => (ed, [])
  | src :: rest =>
      let (ed1, aid) := ed.addAsset ⟨"image", .url src, "sample"⟩
      let (ed2, sid) := ed1.addShape ⟨"image", some aid, "", rect0⟩
      let (ed3, ops) := createImageShapes ed2 rest
      (ed3, [.createAsset aid, .createShape sid] ++ ops)

/-- model of `genImageClick` (src/index.tsx lines 485-632): prompt and at most one
reference image gathered from the selection, a placeholder while
`generateImages` runs, then one asset + shape per result -/
def genImageClickM (env : ToolEnv) (ed : Editor) (n : Nat) (ar : String) : Step :=
  let sel := ed.selectedShapes
  let contents := (sel.filter (fun p => p.2.kind == "text")).map (fun p => p.2.text)
  let imageShapes := (sel.filter (fun p => p.2.kind == "image")).take 1
  let imageBlob : Option Blob :=
    imageShapes.head?.map (fun p => ⟨env.encode (env.rasterize p.1 true)⟩)
  let promptText0 := String.intercalate "\n" contents
  let promptText :=
    if promptText0 = "" ∧ imageBlob.isSome then variantPrompt ar else promptText0
  if promptText = "" ∧ imageBlob.isNone then ⟨.ok (), ed, []⟩
  else
    let (ed1, phId) := ed.addShape placeholderShape
    let ops1 := [CanvasOp.createShape phId, .select [phId]]
    let gen := generateImages env.imgOracle promptText imageBlob n ar
    let callOps := gen.1.map (fun r => CanvasOp.modelCall r.model)
    match gen.2 with
    | .error m =>
        ⟨.error m, ed1.deleteShape phId, ops1 ++ callOps ++ [.deleteShape phId]⟩
    | .ok imgs =>
        let ed2 := ed1.deleteShape phId
        let (ed3, newOps) := createImageShapes ed2 imgs
        ⟨.ok (), ed3, ops1 ++ callOps ++ [.deleteShape phId] ++ newOps⟩

/-- create one asset + shape per generated video (src/index.tsx lines 713-751) -/
def createVideoShapes (ed : Editor) : List String → Editor × List CanvasOp
  | [] => (ed, [])
  | src :: rest =>
      let (ed1, aid) := ed.addAsset ⟨"video", .url ("data:video/mp4;base64," ++ src), "sample"⟩
      let (ed2, sid) := ed1.addShape ⟨"video", some aid, "", rect0⟩
      let (ed3, ops) := createVideoShapes ed2 rest
      (ed3, [.createAsset aid, .createShape sid] ++ ops)

/-- model of `genVideoClick` (src/index.tsx lines 634-765): prompt and at most one
reference image from the selection, a placeholder while `generateVideo` runs,
then one playable video asset + shape per result -/
def genVideoClickM (env : ToolEnv) (ed : Editor) (_ar : String) : Step :=
  let sel := ed.selectedShapes
  let contents := (sel.filter (fun p => p.2.kind == "text")).map (fun p => p.2.text)
  let imageShapes := (sel.filter (fun p => p.2.kind == "image")).take 1
  if contents.isEmpty && imageShapes.isEmpty then ⟨.ok (), ed, []⟩
  else
    let (ed1, phId) := ed.addShape placeholderShape
    let ops1 := [CanvasOp.createShape phId, .select [phId], .modelCall VEO_MODEL_NAME]
    match (generateVideoRun env.videoEnv env.videoPrimary).1 with
    | .error m =>
        ⟨.error m, ed1.deleteShape phId, ops1 ++ [.deleteShape phId]⟩
    | .ok vids =>
        let ed2 := ed1.deleteShape phId
        let (ed3, newOps) := createVideoShapes ed2 vids
        ⟨.ok (), ed3, ops1 ++ [.deleteShape phId] ++ newOps⟩

/-- model of `generateNewVideo` (src/index.tsx lines 874-984): place the reference
image and prompt text on the canvas, select them, run `genVideoClick`, then
wrap the prompt text in a card -/
def generateNewVideoM (env : ToolEnv) (ed : Editor) (prompt : String)
    (imgSrc : Option String) (ar : String) : Step :=
  let (ed1, imgIds, ops1) :=
    match imgSrc with
    | some src =>
        let (eda, aid) := ed.addAsset ⟨"image", .url src, "uploaded_image"⟩
        let (edb, sid) := eda.addShape ⟨"image", some aid, "", rect0⟩
        (edb, [sid], [CanvasOp.createAsset aid, .createShape sid])
    | none => (ed, [], [])
  let (ed2, textIds, ops2) :=
    if prompt ≠ "" then
      let (eda, tid) := ed1.addShape ⟨"text", none, prompt, rect0⟩
      (eda, [tid], [CanvasOp.createShape tid])
    else (ed1, [], [])
  let idsToSelect := imgIds ++ textIds
  let (ed3, ops3) :=
    if idsToSelect.isEmpty then (ed2, [])
    else (ed2.selectSet idsToSelect, [CanvasOp.select idsToSelect])
  let st := genVideoClickM env ed3 ar
  match st.res with
  | .error m => ⟨.error m, st.editor, ops1 ++ ops2 ++ ops3 ++ st.ops⟩
  | .ok _ =>
      let (ed4, ops4) :=
        match textIds with
        | tid :: _ =>
            match st.editor.getShape tid with
            | some _ =>
                let (eda, cardId) := st.editor.addShape ⟨"geo", none, "", rect0⟩
                (eda, [CanvasOp.createShape cardId])
            | none => (st.editor, [])
        | [] => (st.editor, [])
      ⟨.ok (), ed4, ops1 ++ ops2 ++ ops3 ++ st.ops ++ ops4⟩

/-- full-white mask covering the base export, for `composeAI`
(src/index.tsx lines 2040-2046) -/
def whiteMask (bm : Bitmap) : Bitmap :=
  ⟨bm.w, bm.h, fun _ _ => some 16777215⟩

/-- the tool dispatch of the orchestrator loop (src/index.tsx lines
1927-2070), before the surrounding catch: each branch produces a structured
output, a structured error, or a thrown exception, together with the editor
state and effect trace it left behind -/
def dispatchTool (env : ToolEnv) (ctx : ToolCtx) (ed : Editor) (name : String)
    (args : FnArgs) : HandlerRes × Editor × List CanvasOp :=
  if name = "editImage" then
    match ctx.editShapeId with
    | none =>
        (.errorRes "No image selected for editing. The user must select an image and click \"Use in Chat\" first.",
         ed, [])
    | some sid =>
        match ed.getShape sid with
        | none => (.errorRes "Selected shape is not an image.", ed, [])
        | some imgShape =>
            match imgShape.assetId with
            | none => (.errorRes "Could not locate image asset or bounds.", ed, [])
            | some aid =>
                match ed.getAsset aid with
                | none => (.errorRes "Could not locate image asset or bounds.", ed, [])
                | some _ =>
                    let overlaySrc := editImageOverlaySrc ctx.lastImage (some sid)
                    (.output "Opened mask editor. Paint the area to edit and click Generate.",
                     ed, [.openMaskEditor aid (args.prompt.getD "") overlaySrc])
  else if name = "generateImage" then
    let extras : List String :=
      (match args.variationStrength with
       | some v => ["Variation strength: " ++ toString v ++ "."]
       | none => []) ++
      (match args.stylePreset with
       | some s => ["Style: " ++ s ++ "."]
       | none => []) ++
      (match args.negativePrompt with
       | some s => ["Avoid: " ++ s ++ "."]
       | none => []) ++
      (match args.seed with
       | some s => ["Seed: " ++ toString s ++ "."]
       | none => [])
    let prompt0 := args.prompt.getD ""
    let prompt :=
      if extras.isEmpty then prompt0
      else prompt0 ++ "\n" ++ String.intercalate " " extras
    let (ed1, tid) := ed.addShape ⟨"text", none, prompt, rect0⟩
    let ed2 := ed1.select1 tid
    let ops1 := [CanvasOp.createShape tid, .select [tid]]
    let st := genImageClickM env ed2 (args.numberOfImages.getD 1) (args.aspect.getD "16:9")
    match st.res with
    | .error m => (.thrown m, st.editor, ops1 ++ st.ops)
    | .ok _ =>
        (.output ("Successfully generated " ++ toString (args.numberOfImages.getD 1) ++
          " image(s). An image was in the chat context but 'generateImage' was used, so it was ignored. For editing, please rephrase your request to make it clear you want to modify the existing image."),
         st.editor.deleteShape tid, ops1 ++ st.ops ++ [.deleteShape tid])
  else if name = "generateVideo" then
    let st := generateNewVideoM env ed (args.prompt.getD "") ctx.imageSrc
      (args.aspect.getD "16:9")
    match st.res with
    | .error m => (.thrown m, st.editor, st.ops)
    | .ok _ => (.output "Successfully generated video.", st.editor, st.ops)
  else if name = "removeBackground" then
    match ctx.editShapeId with
    | none =>
        (.errorRes "Select an image and click “Use in Chat” or select base image.", ed, [])
    | some sid =>
        let st := runEditImageM env ed
          "Remove the background and make it transparent while preserving the main subject." sid
        match st.res with
        | .error m => (.thrown m, st.editor, st.ops)
        | .ok _ => (.output "Background removed.", st.editor, st.ops)
  else if name = "applyOverlay" then
    match resolveBaseOverlay args ctx.editShapeId ctx.lastImage with
    | (some baseId, some overlayId) =>
        (match bakeOverlayBetweenShapes env.canvasEnv env.rasterize ed baseId overlayId with
         | .ok res => (.output "Overlay applied (flattened).", res.editor, res.ops)
         | .error m => (.thrown m, ed, []))
    | _ =>
        (.errorRes "Provide base/overlay or select base and use an assistant image as overlay.",
         ed, [])
  else if name = "composeAI" then
    match resolveBaseOverlay args ctx.editShapeId ctx.lastImage with
    | (some baseId, some overlayId) =>
        (match ed.getShape baseId, ed.getShape overlayId with
         | some baseShape, some _ =>
             let baseBlob : Blob := ⟨env.encode (env.rasterize baseId true)⟩
             let overlayBlob : Blob := ⟨env.encode (env.rasterize overlayId true)⟩
             if env.canvasEnv.toBlobOk then
               let maskBlob : Blob := ⟨env.encode (whiteMask (env.rasterize baseId true))⟩
               let call := editImageMedia env.imgOracle baseBlob maskBlob
                 ("Integrate the overlay image into the base naturally. " ++ args.prompt.getD "")
                 (some overlayBlob)
               (match call.2 with
                | .error m => (.thrown m, ed, [.modelCall call.1.model])
                | .ok newSrc =>
                    let (ed1, saveOps) := handleSaveEditedImageM ed baseShape.assetId newSrc
                    (.output "Overlay composed with AI.", ed1, .modelCall call.1.model :: saveOps))
             else (.thrown "Could not create mask for composeAI", ed, [])
         | _, _ => (.errorRes "Either base or overlay is not an image.", ed, []))
    | _ =>
        (.errorRes "Provide base/overlay or select base and use an assistant image as overlay.",
         ed, [])
  else if name = "upscaleImage" then
    match ctx.editShapeId with
    | none => (.errorRes "Select an image to upscale.", ed, [])
    | some sid =>
        let st := runEditImageM env ed
          ("Upscale by " ++ toString (args.factor.getD 2) ++ "x while preserving details and sharpness.") sid
        match st.res with
        | .error m => (.thrown m, st.editor, st.ops)
        | .ok _ => (.output "Image upscaled.", st.editor, st.ops)
  else if name = "plan" then
    (.output ("Plan acknowledged: " ++ String.intercalate " -> " (args.steps.getD [])),
     ed, [])
  else (.thrown ("Unknown tool " ++ name), ed, [])

/-- the no-images toast and its replacement result message
(src/index.tsx lines 2074-2081) -/
def noImagesToastTitle : String := "Nenhuma imagem gerada"

def noImagesResultMsg : String :=
  "O modelo não retornou imagem. Experimente detalhar ângulo/iluminação/composição e variar pose e fundo."

/-- one tool invocation as the orchestrator loop sees it: the dispatch above
wrapped in the catch (src/index.tsx lines 2071-2085) that converts any thrown
exception into a `ToolResult.error`, with the no-images message specially
recognized -/
def execTool (env : ToolEnv) (ctx : ToolCtx) (ed : Editor) (name : String)
    (args : FnArgs) : ToolResult × Editor × List CanvasOp :=
  match dispatchTool env ctx ed name args with
  | (.output s, ed1, ops) => (.output s, ed1, ops)
  | (.errorRes s, ed1, ops) => (.error s, ed1, ops)
  | (.thrown m, ed1, ops) =>
      if containsLC m "did not return images" then
        (.error noImagesResultMsg, ed1, ops ++ [.toast noImagesToastTitle])
      else (.error m, ed1, ops)

/-- environment of the language-model side of one `handleAssistantSubmit`
invocation: the outcome of the first `sendMessage` on the primary chat, the
outcome of the first `sendMessage` on the fallback chat (consulted only after
a transient primary failure), and the successive outcomes of the
function-response sends inside the loop.  A finite list covers every
terminating execution; exhausting it is the environment failing a
`sendMessage`. -/
structure ModelOracle where
  firstPrimary : Except String ModelResponse
  firstFallback : Except String ModelResponse
  loopResponses : List (Except String ModelResponse)

/-- React session state read by `handleAssistantSubmit`: the last chat image
and the transcript, as of the render that created the callback -/
structure SessionState where
  lastImage : Option ChatImage
  history : List Turn

/-- observable outcome of one `handleAssistantSubmit` invocation -/
structure SubmitOutcome where
  history : List Turn
  lastImage : Option ChatImage
  editor : Editor
  ops : List CanvasOp
  err : Option String              -- message of an exception escaping the handler
  usedFallbackModel : Bool
  fallbackCfg : Option ChatCfg     -- configuration of the fallback chat, if created
  fallbackSentParts : Option (List Part)  -- message parts sent to the fallback chat
  toasts : List String             -- orchestrator-level toasts

/-- the `data:(.*);base64,(.*)` match used to turn an attached image into an
inline part (src/index.tsx lines 1881-1891), for a source with a single
`;base64,` marker -/
def parseDataUrl (s : String) : Option (String × String) :=
  if s.startsWith "data:" then
    match (s.drop 5).splitOn ";base64," with
    | [mt, data] => some (mt, data)
    | _ => none
  else none

/-- the user message parts: the prompt text plus, when an image was attached
and its source parses as a data URL, an inline-data part -/
def mkUserParts (prompt : String) (image : Option ChatImage) : List Part :=
  match image with
  | none => [Part.text prompt]
  | some im =>
      match parseDataUrl im.src with
      | some (mt, data) => [Part.text prompt, Part.inline ⟨mt, data⟩]
      | none => [Part.text prompt]

/-- the `while (response.candidates[0].content.parts[0].functionCall)` loop
(src/index.tsx lines 1921-2091): as long as the first part of the current
response is a function call, execute the tool (its exceptions converted to
error results by `execTool`) and send the function response back; a response
with an empty parts list makes the condition itself throw.  Returns the final
response, or the message of the exception that escaped. -/
def partsUndefinedMsg : String :=
  "Cannot read properties of undefined (reading 'functionCall')"

def runToolLoop (env : ToolEnv) (ctx : ToolCtx) :
    List (Except String ModelResponse) → ModelResponse → Editor → List CanvasOp →
    Except String ModelResponse × Editor × List CanvasOp
  | [], resp, ed, ops =>
      (match resp.parts with
       | [] => (.error partsUndefinedMsg, ed, ops)
       | Part.functionCall name args :: _ =>
           let t := execTool env ctx ed name args
           (.error "sendMessage failed", t.2.1, ops ++ t.2.2)
       | _ :: _ => (.ok resp, ed, ops))
  | e :: rest, resp, ed, ops =>
      (match resp.parts with
       | [] => (.error partsUndefinedMsg, ed, ops)
       | Part.functionCall name args :: _ =>
           let t := execTool env ctx ed name args
           (match e with
            | .error m => (.error m, t.2.1, ops ++ t.2.2)
            | .ok r => runToolLoop env ctx rest r t.2.1 (ops ++ t.2.2))
       | _ :: _ => (.ok resp, ed, ops))

/-- tail of `handleAssistantSubmit` after the first model response was
obtained (or failed): on failure nothing further happens and the exception
escapes with the user turn already appended; on success the tool loop runs
and, if it finishes normally, its final response is appended as the model
turn -/
def submitFinish (hist1 : List Turn) (newLast : Option ChatImage) (ed : Editor)
    (usedFb : Bool) (fbCfg : Option ChatCfg) (fbSent : Option (List Part))
    (toasts0 : List String) (first : Except String ModelResponse)
    (loop : ModelResponse → Except String ModelResponse × Editor × List CanvasOp) :
    SubmitOutcome :=
  match first with
  | .error m =>
      ⟨hist1, newLast, ed, [], some m, usedFb, fbCfg, fbSent, toasts0⟩
  | .ok r0 =>
      match loop r0 with
      | (.error m, ed1, ops1) =>
          ⟨hist1, newLast, ed1, ops1, some m, usedFb, fbCfg, fbSent, toasts0⟩
      | (.ok finalResp, ed1, ops1) =>
          ⟨hist1 ++ [⟨"model", finalResp.parts⟩], newLast, ed1, ops1, none,
           usedFb, fbCfg, fbSent, toasts0⟩

/-- whether the first primary `sendMessage` failed with a transient-class
error, triggering the model-tier fallback -/
def primaryTransient (oracle : ModelOracle) : Bool :=
  match oracle.firstPrimary with
  | .error m => isTransientMsg m
  | .ok _ => false

/-- the response the loop starts from: the primary response, the fallback
response after a transient primary failure, or the propagated error -/
def firstResponse (oracle : ModelOracle) : Except String ModelResponse :=
  match oracle.firstPrimary with
  | .ok r => .ok r
  | .error m => if isTransientMsg m then oracle.firstFallback else .error m

/-- model of `handleAssistantSubmit` (src/index.tsx lines 1843-2094).  The attached
image updates the last-chat-image state (visible to later invocations); the
implicit tool context is derived from the attachment or the previous last
image; the user turn is appended to the transcript before the model call; a
transient primary failure triggers the Flash fallback chat (same tool
registry, same user parts) after an informational toast, while any other
failure propagates; the tool loop then runs, and only a final response free
of a leading function call is appended as the model turn. -/
def handleAssistantSubmit (env : ToolEnv) (oracle : ModelOracle)
    (st : SessionState) (prompt : String) (image : Option ChatImage)
    (ed : Editor) : SubmitOutcome :=
  let newLast := image <|> st.lastImage
  let ctx : ToolCtx :=
    { imageSrc := (image.map (fun i => i.src)) <|> (st.lastImage.map (fun i => i.src)),
      editShapeId := (image.map (fun i => i.shapeId)) <|> (st.lastImage.map (fun i => i.shapeId)),
      lastImage := st.lastImage }
  let userParts := mkUserParts prompt image
  let hist1 := st.history ++ [⟨"user", userParts⟩]
  let tr := primaryTransient oracle
  submitFinish hist1 newLast ed tr
    (if tr then some fallbackModelChatCfg else none)
    (if tr then some userParts else none)
    (if tr then ["Assistente (Pro) indisponível"] else [])
    (firstResponse oracle)
    (fun r0 => runToolLoop env ctx oracle.loopResponses r0 ed [])

theorem submitFinish_proj (h : List Turn) (n : Option ChatImage) (e : Editor)
    (u : Bool) (c : Option ChatCfg) (s : Option (List Part)) (t : List String)
    (f : Except String ModelResponse)
    (l : ModelResponse → Except String ModelResponse × Editor × List CanvasOp) :
    (submitFinish h n e u c s t f l).usedFallbackModel = u ∧
    (submitFinish h n e u c s t f l).fallbackCfg = c ∧
    (submitFinish h n e u c s t f l).fallbackSentParts = s ∧
    (submitFinish h n e u c s t f l).toasts = t := by
  unfold submitFinish
  rcases f with m | r0
  · exact ⟨rfl, rfl, rfl, rfl⟩
  · dsimp only
    rcases hl : l r0 with ⟨fin, e1, o1⟩
    rcases fin with m | fr <;> exact ⟨rfl, rfl, rfl, rfl⟩

theorem submitFinish_err_history (h : List Turn) (n : Option ChatImage) (e : Editor)
    (u : Bool) (c : Option ChatCfg) (s : Option (List Part)) (t : List String)
    (f : Except String ModelResponse)
    (l : ModelResponse → Except String ModelResponse × Editor × List CanvasOp)
    (m : String) (he : (submitFinish h n e u c s t f l).err = some m) :
    (submitFinish h n e u c s t f l).history = h := by
  unfold submitFinish at he ⊢
  rcases f with m' | r0
  · rfl
  · dsimp only at he ⊢
    rcases hl : l r0 with ⟨fin, e1, o1⟩
    rw [hl] at he
    rcases fin with m' | fr
    · rfl
    · exact Option.noConfusion he

theorem submitFinish_ok_history (h : List Turn) (n : Option ChatImage) (e : Editor)
    (u : Bool) (c : Option ChatCfg) (s : Option (List Part)) (t : List String)
    (f : Except String ModelResponse)
    (l : ModelResponse → Except String ModelResponse × Editor × List CanvasOp)
    (he : (submitFinish h n e u c s t f l).err = none) :
    ∃ r0 fr e1 o1, f = .ok r0 ∧ l r0 = (.ok fr, e1, o1) ∧
      (submitFinish h n e u c s t f l).history = h ++ [⟨"model", fr.parts⟩] := by
  unfold submitFinish at he ⊢
  rcases f with m' | r0
  · exact absurd he (by simp)
  · dsimp only at he ⊢
    rcases hl : l r0 with ⟨fin, e1, o1⟩
    rw [hl] at he
    rcases fin with m' | fr
    · exact Option.noConfusion he
    · exact ⟨r0, fr, e1, o1, rfl, hl, rfl⟩

theorem runToolLoop_ok_shape (env : ToolEnv) (ctx : ToolCtx) :
    ∀ (oracle : List (Except String ModelResponse)) (resp : ModelResponse)
      (ed : Editor) (ops : List CanvasOp) (fr : ModelResponse) (ed1 : Editor)
      (ops1 : List CanvasOp),
      runToolLoop env ctx oracle resp ed ops = (.ok fr, ed1, ops1) →
      ∃ p rest, fr.parts = p :: rest ∧ ∀ nm args, p ≠ Part.functionCall nm args := by
  intro oracle
  induction oracle with
  | nil =>
      intro resp ed ops fr ed1 ops1 hrl
      unfold runToolLoop at hrl
      rcases hp : resp.parts with _ | ⟨p, rest⟩ <;> rw [hp] at hrl
      · exact absurd hrl (by simp)
      · cases p with
        | functionCall nm args => exact absurd hrl (by simp)
        | text s =>
            have hfr : resp = fr := by
              simpa using congrArg (fun q => q.1) hrl
            exact ⟨.text s, rest, hfr ▸ hp,
              fun nm args hne => Part.noConfusion hne⟩
        | inline d =>
            have hfr : resp = fr := by
              simpa using congrArg (fun q => q.1) hrl
            exact ⟨.inline d, rest, hfr ▸ hp,
              fun nm args hne => Part.noConfusion hne⟩
        | functionResponse nm res =>
            have hfr : resp = fr := by
              simpa using congrArg (fun q => q.1) hrl
            exact ⟨.functionResponse nm res, rest, hfr ▸ hp,
              fun nm args hne => Part.noConfusion hne⟩
  | cons head tail ih =>
      intro resp ed ops fr ed1 ops1 hrl
      unfold runToolLoop at hrl
      rcases hp : resp.parts with _ | ⟨p, rest⟩ <;> rw [hp] at hrl
      · exact absurd hrl (by simp)
      · cases p with
        | functionCall nm args =>
            rcases head with m | r
            · exact absurd hrl (by simp)
            · exact ih r _ _ fr ed1 ops1 (by simpa using hrl)
        | text s =>
            have hfr : resp = fr := by
              simpa using congrArg (fun q => q.1) hrl
            exact ⟨.text s, rest, hfr ▸ hp,
              fun nm args hne => Part.noConfusion hne⟩
        | inline d =>
            have hfr : resp = fr := by
              simpa using congrArg (fun q => q.1) hrl
            exact ⟨.inline d, rest, hfr ▸ hp,
              fun nm args hne => Part.noConfusion hne⟩
        | functionResponse nm res =>
            have hfr : resp = fr := by
              simpa using congrArg (fun q => q.1) hrl
            exact ⟨.functionResponse nm res, rest, hfr ▸ hp,
              fun nm args hne => Part.noConfusion hne⟩

/-- C1: if the primary model call fails with a message of the transient
server-side class (INTERNAL / HTTP 500), `handleAssistantSubmit` raises an
informational toast and retries the same user message against the
gemini-2.5-flash fallback chat configured with the same tool registry as the
primary chat; for a failure of any other class the error escapes to the
caller unchanged and no fallback chat is used. -/
theorem assistant_model_fallback (env : ToolEnv) (oracle : ModelOracle)
    (st : SessionState) (prompt : String) (image : Option ChatImage) (ed : Editor) :
    (∀ m, oracle.firstPrimary = .error m → isTransientMsg m = true →
      (handleAssistantSubmit env oracle st prompt image ed).usedFallbackModel = true ∧
      (handleAssistantSubmit env oracle st prompt image ed).fallbackCfg =
        some ⟨"gemini-2.5-flash", primaryChatCfg.toolNames⟩ ∧
      (handleAssistantSubmit env oracle st prompt image ed).fallbackSentParts =
        some (mkUserParts prompt image) ∧
      "Assistente (Pro) indisponível" ∈
        (handleAssistantSubmit env oracle st prompt image ed).toasts) ∧
    (∀ m, oracle.firstPrimary = .error m → isTransientMsg m = false →
      (handleAssistantSubmit env oracle st prompt image ed).err = some m ∧
      (handleAssistantSubmit env oracle st prompt image ed).usedFallbackModel = false ∧
      (handleAssistantSubmit env oracle st prompt image ed).fallbackSentParts = none) := by
  constructor
  · intro m hm htr
    have htr' : primaryTransient oracle = true := by
      unfold primaryTransient; rw [hm]; exact htr
    simp only [handleAssistantSubmit, htr', if_true]
    obtain ⟨h1, h2, h3, h4⟩ := submitFinish_proj
      (st.history ++ [⟨"user", mkUserParts prompt image⟩])
      (image <|> st.lastImage) ed true (some fallbackModelChatCfg)
      (some (mkUserParts prompt image)) ["Assistente (Pro) indisponível"]
      (firstResponse oracle)
      (fun r0 => runToolLoop env
        ⟨(image.map (fun i => i.src)) <|> (st.lastImage.map (fun i => i.src)),
         (image.map (fun i => i.shapeId)) <|> (st.lastImage.map (fun i => i.shapeId)),
         st.lastImage⟩ oracle.loopResponses r0 ed [])
    exact ⟨h1, h2.trans rfl, h3, by rw [h4]; exact List.mem_singleton.mpr rfl⟩
  · intro m hm htr
    have htr' : primaryTransient oracle = false := by
      unfold primaryTransient; rw [hm]; exact htr
    have hfr : firstResponse oracle = .error m := by
      unfold firstResponse; rw [hm]; dsimp only; rw [htr]; simp
    simp only [handleAssistantSubmit, htr', if_false, hfr]
    exact ⟨rfl, rfl, rfl⟩

def emptyEditor : Editor := ⟨[], [], [], 0⟩

/-- a tool environment whose oracles all fail: blank rasterization, no
generated images, no FAL credential, failing Veo -/
def trivialToolEnv : ToolEnv :=
  ⟨fun _ _ => blankCanvas 0 0, fun _ => "", fun _ => none, falOffEnv, .error "veo down",
   canvasOk⟩

def emptySession : SessionState := ⟨none, []⟩

/-- oracle whose primary chat fails with an INTERNAL error and whose fallback
chat then answers with plain text -/
def transientOracle : ModelOracle :=
  ⟨.error "got status: 500 INTERNAL. Please retry.", .ok ⟨[Part.text "ok"]⟩, []⟩

/-- oracle whose primary chat fails with a non-transient error -/
def failingOracle : ModelOracle := ⟨.error "fetch failed", .error "x", []⟩

/-- Closed witness for `assistant_model_fallback`: a transient INTERNAL/500
failure engages the Flash fallback with the registry tools and the same user
parts, while a plain network failure propagates with no fallback. -/
theorem assistant_model_fallback_witness :
    ((handleAssistantSubmit trivialToolEnv transientOracle emptySession "hi" none
        emptyEditor).usedFallbackModel = true ∧
     (handleAssistantSubmit trivialToolEnv transientOracle emptySession "hi" none
        emptyEditor).fallbackCfg = some ⟨"gemini-2.5-flash", primaryChatCfg.toolNames⟩ ∧
     (handleAssistantSubmit trivialToolEnv transientOracle emptySession "hi" none
        emptyEditor).fallbackSentParts = some (mkUserParts "hi" none) ∧
     "Assistente (Pro) indisponível" ∈
       (handleAssistantSubmit trivialToolEnv transientOracle emptySession "hi" none
        emptyEditor).toasts) ∧
    ((handleAssistantSubmit trivialToolEnv failingOracle emptySession "hi" none
        emptyEditor).err = some "fetch failed" ∧
     (handleAssistantSubmit trivialToolEnv failingOracle emptySession "hi" none
        emptyEditor).usedFallbackModel = false ∧
     (handleAssistantSubmit trivialToolEnv failingOracle emptySession "hi" none
        emptyEditor).fallbackSentParts = none) :=
  ⟨(assistant_model_fallback trivialToolEnv transientOracle emptySession "hi" none
      emptyEditor).1 "got status: 500 INTERNAL. Please retry." rfl (by decide),
   (assistant_model_fallback trivialToolEnv failingOracle emptySession "hi" none
      emptyEditor).2 "fetch failed" rfl (by decide)⟩

/-- C7: whenever `handleAssistantSubmit` completes without an escaping
exception, exactly one user turn and one final model turn are appended to the
transcript, and the appended model turn's first part is not a function call —
a response whose first part is a function call is consumed by the loop and
never appended. -/
theorem assistant_transcript_final_only (env : ToolEnv) (oracle : ModelOracle)
    (st : SessionState) (prompt : String) (image : Option ChatImage) (ed : Editor)
    (h : (handleAssistantSubmit env oracle st prompt image ed).err = none) :
    ∃ parts p rest,
      (handleAssistantSubmit env oracle st prompt image ed).history =
        st.history ++ [⟨"user", mkUserParts prompt image⟩, ⟨"model", parts⟩] ∧
      parts = p :: rest ∧ (∀ nm args, p ≠ Part.functionCall nm args) := by
  simp only [handleAssistantSubmit] at h ⊢
  obtain ⟨r0, fr, e1, o1, hf, hl, hh⟩ :=
    submitFinish_ok_history _ _ _ _ _ _ _ _ _ h
  obtain ⟨p, rest, hpr, hnp⟩ :=
    runToolLoop_ok_shape env _ oracle.loopResponses r0 ed [] fr e1 o1 hl
  exact ⟨fr.parts, p, rest, by rw [hh, List.append_assoc]; rfl, hpr, hnp⟩

/-- oracle whose primary chat immediately answers with plain text -/
def okOracle : ModelOracle := ⟨.ok ⟨[Part.text "done"]⟩, .error "x", []⟩

/-- Closed witness for `assistant_transcript_final_only` at a run whose model
answers immediately. -/
theorem assistant_transcript_final_only_witness :
    (handleAssistantSubmit trivialToolEnv okOracle emptySession "hi" none
      emptyEditor).err = none ∧
    ∃ parts p rest,
      (handleAssistantSubmit trivialToolEnv okOracle emptySession "hi" none
        emptyEditor).history =
        emptySession.history ++ [⟨"user", mkUserParts "hi" none⟩, ⟨"model", parts⟩] ∧
      parts = p :: rest ∧ (∀ nm args, p ≠ Part.functionCall nm args) :=
  ⟨rfl, assistant_transcript_final_only trivialToolEnv okOracle emptySession "hi" none
    emptyEditor rfl⟩

/-- C9 counterexample: the user turn is appended to the transcript before the
model call (src/index.tsx line 1894), so when the model request fails with a
non-transient error a turn for that request DOES remain in the transcript:
the claim that no turn remains is false. -/
theorem assistant_failed_request_counterexample :
    (handleAssistantSubmit trivialToolEnv failingOracle emptySession "hi" none
      emptyEditor).err = some "fetch failed" ∧
    (handleAssistantSubmit trivialToolEnv failingOracle emptySession "hi" none
      emptyEditor).history = [⟨"user", [Part.text "hi"]⟩] ∧
    [(⟨"user", [Part.text "hi"]⟩ : Turn)] ≠ emptySession.history :=
  ⟨rfl, rfl, by simp [emptySession]⟩

/-- C9 amended: when the model request fails (after the fallback attempt or
with a non-transient error), the user turn appended before the call remains
in the transcript, but no model turn is appended for the request — the
transcript gains exactly the user turn and the error escapes. -/
theorem assistant_failed_request_amended (env : ToolEnv) (oracle : ModelOracle)
    (st : SessionState) (prompt : String) (image : Option ChatImage) (ed : Editor)
    (m : String)
    (h : (handleAssistantSubmit env oracle st prompt image ed).err = some m) :
    (handleAssistantSubmit env oracle st prompt image ed).history =
      st.history ++ [⟨"user", mkUserParts prompt image⟩] := by
  simp only [handleAssistantSubmit] at h ⊢
  exact submitFinish_err_history _ _ _ _ _ _ _ _ _ m h

/-- Closed witness for `assistant_failed_request_amended` at the concrete
failing run. -/
theorem assistant_failed_request_amended_witness :
    (handleAssistantSubmit trivialToolEnv failingOracle emptySession "hi" none
      emptyEditor).history =
      emptySession.history ++ [⟨"user", mkUserParts "hi" none⟩] :=
  assistant_failed_request_amended trivialToolEnv failingOracle emptySession "hi" none
    emptyEditor "fetch failed" rfl

/-- C5: for each tool that requires a base image (editImage,
removeBackground, upscaleImage, applyOverlay, composeAI), when the model
supplies no explicit shape id and no implicit chat-image context exists, the
tool result is a structured error and the canvas is untouched: the editor
state is returned unchanged and the effect trace is empty. -/
theorem tool_missing_target_error (env : ToolEnv) (ed : Editor) (ctx : ToolCtx)
    (args : FnArgs) (name : String)
    (hname : name = "editImage" ∨ name = "removeBackground" ∨ name = "upscaleImage" ∨
      name = "applyOverlay" ∨ name = "composeAI")
    (hbase : args.baseShapeId = none) (hover : args.overlayShapeId = none)
    (heid : ctx.editShapeId = none) (hlast : ctx.lastImage = none) :
    (execTool env ctx ed name args).1.isError = true ∧
    (execTool env ctx ed name args).2.1 = ed ∧
    (execTool env ctx ed name args).2.2 = [] := by
  rcases hname with h | h | h | h | h <;> subst h <;>
    simp [execTool, dispatchTool, resolveBaseOverlay, heid, hlast, hbase, hover,
      ToolResult.isError, Option.orElse]

/-- Closed witness for `tool_missing_target_error`: applyOverlay with no
arguments and no implicit context. -/
theorem tool_missing_target_error_witness :
    (execTool trivialToolEnv ⟨none, none, none⟩ emptyEditor "applyOverlay" {}).1.isError = true ∧
    (execTool trivialToolEnv ⟨none, none, none⟩ emptyEditor "applyOverlay" {}).2.1 = emptyEditor ∧
    (execTool trivialToolEnv ⟨none, none, none⟩ emptyEditor "applyOverlay" {}).2.2 = [] :=
  tool_missing_target_error trivialToolEnv emptyEditor ⟨none, none, none⟩ {} "applyOverlay"
    (Or.inr (Or.inr (Or.inr (Or.inl rfl)))) rfl rfl rfl rfl

/-- the last chat image, itself living on shape 5 -/
def chatImg5 : ChatImage := ⟨"data:image/png;base64,AAA", 5⟩

/-- editor holding the single image shape 5 with asset 50 -/
def edImg5 : Editor :=
  ⟨[(5, ⟨"image", some 50, "", ⟨0, 0, 4, 4⟩⟩)],
   [(50, ⟨"image", .url "s", "n"⟩)], [], 100⟩

/-- C8 counterexample: with no explicit ids, applyOverlay resolves the base
to the edit-target default and the overlay to the last chat image with no
distinctness check (src/index.tsx lines 2016-2017) — when the edit target IS
the last chat image, overlay and base resolve to the same shape, and the tool
proceeds to bake the shape onto itself and delete it.  The claimed rule
"the resolved overlay is never the resolved base" therefore fails for
applyOverlay (and composeAI). -/
theorem resolution_overlay_eq_base_counterexample :
    resolveBaseOverlay {} (some 5) (some chatImg5) = (some 5, some 5) ∧
    CanvasOp.deleteShape 5 ∈
      (execTool trivialToolEnv ⟨some chatImg5.src, some 5, some chatImg5⟩ edImg5
        "applyOverlay" {}).2.2 := by
  exact ⟨rfl, by decide⟩

/-- C8 amended: without explicit ids the base defaults to the edit-target
(the last image attached in chat) for all three tools; for editImage the
default overlay is the last chat image only when it is a different shape
from the base (so there overlay ≠ base); but for applyOverlay and composeAI
the default overlay is the last chat image unconditionally, so the resolved
overlay may equal the resolved base. -/
theorem resolution_defaults_amended (eid : Nat) (li : ChatImage) :
    resolveBaseOverlay {} (some eid) (some li) = (some eid, some li.shapeId) ∧
    (∀ s, editImageOverlaySrc (some li) (some eid) = some s →
      li.shapeId ≠ eid ∧ s = li.src) ∧
    (li.shapeId ≠ eid → editImageOverlaySrc (some li) (some eid) = some li.src) := by
  refine ⟨rfl, ?_, ?_⟩
  · intro s hs
    unfold editImageOverlaySrc at hs
    dsimp only at hs
    by_cases h : some li.shapeId ≠ some eid
    · rw [if_pos h] at hs
      exact ⟨by simpa using h, (Option.some.inj hs).symm⟩
    · rw [if_neg h] at hs
      exact Option.noConfusion hs
  · intro h
    unfold editImageOverlaySrc
    dsimp only
    rw [if_pos (by simpa using h)]

/-- Closed witness for `resolution_defaults_amended` at a last chat image on
a different shape from the edit target. -/
theorem resolution_defaults_amended_witness :
    resolveBaseOverlay {} (some 1) (some (⟨"s", 2⟩ : ChatImage)) = (some 1, some 2) ∧
    editImageOverlaySrc (some (⟨"s", 2⟩ : ChatImage)) (some 1) = some "s" :=
  ⟨(resolution_defaults_amended 1 ⟨"s", 2⟩).1,
   (resolution_defaults_amended 1 ⟨"s", 2⟩).2.2 (by decide)⟩

end GeminiTldraw
